import Mathlib

/-!
# Verification of the currency-rates ETL pipeline

Shallow embedding of `src/dags/dag_currency_etl.py`: the `extract`,
`transform` and `load` Airflow tasks of the `currency_rates_etl` DAG,
together with the Airflow retry wrapper declared on `extract`
(`@task(retries=5, retry_delay=timedelta(minutes=1))`).

Modelling conventions:
* a JSON response body is a `RawResponse` with an optional `date` string and
  an association list of `(currency_code, rate)` pairs — Python dicts
  preserve insertion order, hence a list; `data.get("rates", {})` makes a
  missing `rates` key indistinguishable from an empty mapping, so `rates`
  is the (possibly empty) list directly;
* rates are `Rat` (decimal numbers passed through unchanged by the code);
* a pandas `DataFrame` is a list of column labels plus a list of rows,
  with exactly the operations the source uses (construction from pairs,
  scalar column assignment, column selection / reordering);
* `pd.to_datetime` is modelled on the ISO `YYYY-MM-DD` fragment the
  pipeline exercises: it yields a calendar date for a well-formed ISO
  string and fails otherwise (as `pd.to_datetime` raises on a string it
  cannot parse);
* a Python exception that aborts a task is an `Except.error`.
-/

set_option autoImplicit false

namespace CurrencyEtl

/-- A calendar date, the result of parsing a date string. -/
structure Date where
  year : Nat
  month : Nat
  day : Nat
  deriving Repr, DecidableEq

/-- Leap-year rule of the Gregorian calendar. -/
def isLeapYear (y : Nat) : Bool :=
  (y % 4 == 0 && y % 100 != 0) || y % 400 == 0

/-- Number of days in month `m` of year `y`. -/
def daysInMonth (y m : Nat) : Nat :=
  if m == 2 then (if isLeapYear y then 29 else 28)
  else if m == 4 || m == 6 || m == 9 || m == 11 then 30
  else 31

/-- Split a character list on the `-` separator (the character-level
behavior of `s.split("-")` on the date strings the pipeline sees). -/
def splitDash (cs : List Char) : List (List Char) :=
  match cs with
  | [] => [[]]
  | c :: rest =>
    match splitDash rest with
    | [] => if c = '-' then [[], []] else [[c]]
    | g :: gs => if c = '-' then [] :: g :: gs else (c :: g) :: gs

/-- The numeric value of a non-empty all-digit character list. -/
def decimalNat? (cs : List Char) : Option Nat :=
  if cs.isEmpty then none
  else if cs.all Char.isDigit then
    some (cs.foldl (fun n c => n * 10 + (c.toNat - 48)) 0)
  else none

/-- The `YYYY-MM-DD` fragment of `pd.to_datetime`: parses an ISO calendar
date string, `none` when the string is not of that shape (where
`pd.to_datetime` raises). -/
def parseDate (s : String) : Option Date :=
  match splitDash s.toList with
  | [ys, ms, ds] =>
    match decimalNat? ys, decimalNat? ms, decimalNat? ds with
    | some y, some m, some d =>
      if ys.length == 4 && ms.length == 2 && ds.length == 2
          && 1 ≤ m && m ≤ 12 && 1 ≤ d && d ≤ daysInMonth y m then
        some ⟨y, m, d⟩
      else none
    | _, _, _ => none
  | _ => none

/-- A cell value of the tabular record set: a string, a decimal number, or
a parsed datetime (what `pd.to_datetime` stores in the `date` column). -/
inductive Value where
  | str (s : String)
  | rat (q : Rat)
  | date (d : Date)
  deriving Repr, DecidableEq

/-- A pandas `DataFrame`: ordered column labels and rows of cell values. -/
structure DataFrame where
  columns : List String
  rows : List (List Value)
  deriving Repr, DecidableEq

/-- Model of `pd.DataFrame(list(pairs), columns=["currency_code", "rate"])`:
one row per `(code, rate)` pair, in mapping order. -/
def dataFrameOfRates (pairs : List (String × Rat)) : DataFrame :=
  ⟨["currency_code", "rate"], pairs.map fun p => [Value.str p.1, Value.rat p.2]⟩

/-- Model of `df[name] = v` with a scalar `v`: overwrite the column if the label
exists, otherwise append it on the right with `v` in every row. -/
def DataFrame.setScalarColumn (df : DataFrame) (name : String) (v : Value) :
    DataFrame :=
  match df.columns.findIdx? (· == name) with
  | some i => ⟨df.columns, df.rows.map fun row => row.set i v⟩
  | none => ⟨df.columns ++ [name], df.rows.map fun row => row ++ [v]⟩

/-- Model of `df[cols]`: select / reorder columns by label. Every label the pipeline
selects is present, so a missing label (a pandas `KeyError`) is elided and
yields a junk cell. -/
def DataFrame.selectColumns (df : DataFrame) (cols : List String) : DataFrame :=
  ⟨cols, df.rows.map fun row =>
    cols.map fun c =>
      match df.columns.findIdx? (· == c) with
      | some i => row.getD i (Value.str "")
      | none => Value.str ""⟩

/-- The raw API response body consumed by `transform`. -/
structure RawResponse where
  date : Option String
  rates : List (String × Rat)
  deriving Repr, DecidableEq

/-- The ways `transform` can abort its task. -/
inductive TransformError where
  /-- The `ValueError` raised when the response holds no rate data. -/
  | noRateData (logical_date_str : String)
  /-- The error of `pd.to_datetime` raising on an unparseable date string. -/
  | dateParseError (s : String)
  deriving Repr, DecidableEq

/-- The `transform` task: raises `ValueError` when `data.get("rates", {})`
is empty; otherwise builds the frame from the rate pairs, assigns the
constant `base_currency` column, assigns the `date` column from
`pd.to_datetime(data.get("date", logical_date_str))`, and reorders to the
fixed final column order. -/
def transform (data : RawResponse) (logical_date_str base_currency : String) :
    Except TransformError DataFrame :=
  let rates := data.rates
  if rates.isEmpty then
    Except.error (TransformError.noRateData logical_date_str)
  else
    let dateStr := data.date.getD logical_date_str
    match parseDate dateStr with
    | none => Except.error (TransformError.dateParseError dateStr)
    | some d =>
      let df := dataFrameOfRates rates
      let df := df.setScalarColumn "base_currency" (Value.str base_currency)
      let df := df.setScalarColumn "date" (Value.date d)
      let final_columns := ["date", "base_currency", "currency_code", "rate"]
      Except.ok (df.selectColumns final_columns)

/-! ## The `extract` task and its Airflow retry wrapper -/

/-- What one HTTP fetch of the rate service can come to: a transport-level
`RequestException` (timeout, connection failure), or a response with a
status code and a parsed JSON body. -/
inductive HttpOutcome where
  | transportError (msg : String)
  | response (status : Nat) (body : RawResponse)
  deriving Repr, DecidableEq

/-- The single failure kind `extract` signals: the `AirflowException`
wrapping `f"API request failed: {e}"`. -/
inductive ExtractError where
  | apiRequestFailed (msg : String)
  deriving Repr, DecidableEq

/-- Predicate for `response.raise_for_status()` raising: it raises
`HTTPError` exactly for client
(4xx) and server (5xx) status codes. -/
def raiseForStatusFails (status : Nat) : Bool :=
  400 ≤ status && status < 600

/-- One attempt of the `extract` task on a given HTTP outcome: a transport
error or a 4xx/5xx status is caught as a `RequestException` and re-raised
as the one `AirflowException`; otherwise the parsed body is returned
as-is. -/
def extract (outcome : HttpOutcome) : Except ExtractError RawResponse :=
  match outcome with
  | HttpOutcome.transportError msg =>
    Except.error (ExtractError.apiRequestFailed msg)
  | HttpOutcome.response status body =>
    if raiseForStatusFails status then
      Except.error (ExtractError.apiRequestFailed ("status " ++ toString status))
    else
      Except.ok body

/-- An Airflow task retry policy: `retries` further tries after the first
attempt, each preceded by a fixed `retry_delay`. -/
structure RetryPolicy where
  retries : Nat
  retryDelayMinutes : Nat
  deriving Repr, DecidableEq

/-- The policy `@task(retries=5, retry_delay=timedelta(minutes=1))`
declared on `extract`. -/
def extractRetryPolicy : RetryPolicy := ⟨5, 1⟩

/-- Airflow running one task attempt after another: attempt `i` runs at
time `t` (in minutes); on failure with `k` retries left, the next attempt
runs after the fixed delay. Returns the start times of every attempt made
and the final result. -/
def retryRun {E A : Type} (f : Nat → Except E A) (delay : Nat) :
    Nat → Nat → Nat → List Nat × Except E A
  | t, i, 0 => ([t], f i)
  | t, i, k + 1 =>
    match f i with
    | Except.ok a => ([t], Except.ok a)
    | Except.error _ =>
      let rest := retryRun f delay (t + delay) (i + 1) k
      (t :: rest.1, rest.2)

/-! ## The `load` task and the storage sink -/

/-- GCS modelled as a map from object path to stored file content. -/
def Store : Type := String → Option DataFrame

/-- Model of `df.to_parquet(path, ...)` against object storage: creates or replaces
exactly the one object at `path`. -/
def writeStore (store : Store) (path : String) (df : DataFrame) : Store :=
  fun p => if p = path then some df else store p

/-- The partition path built by `load`:
`f"{OUTPUT_PATH}/base_currency={base_currency}/date={logical_date_str}"`
followed by `f"{partition_path}/data.parquet"`. -/
def partitionPath (output_path base_currency logical_date_str : String) :
    String :=
  let partition_path :=
    output_path ++ "/base_currency=" ++ base_currency ++ "/date="
      ++ logical_date_str
  partition_path ++ "/data.parquet"

/-- The `load` task (its storage effect): writes the frame to the
partition path computed from the logical date and base currency,
overwriting whatever is there. Credential acquisition and I/O failures
abort the task leaving the store unchanged; the success path is the one
modelled here. -/
def load (store : Store) (df : DataFrame)
    (logical_date_str base_currency output_path : String) : Store :=
  writeStore store (partitionPath output_path base_currency logical_date_str) df

/-! ## The pipeline driver -/

/-- The `currency_rates_etl` DAG body on one logical date, given the data
the (retry-wrapped) fetch settled on: a failed fetch or transform aborts
the run leaving storage untouched, otherwise `load` writes the transformed
frame. -/
def runPipeline (fetched : Except ExtractError RawResponse) (store : Store)
    (logical_date_str base_currency output_path : String) : Store :=
  match fetched with
  | Except.error _ => store
  | Except.ok raw =>
    match transform raw logical_date_str base_currency with
    | Except.error _ => store
    | Except.ok df => load store df logical_date_str base_currency output_path

/-- Observable shape of one driver invocation: when each fetch attempt
started, whether the downstream tasks ran, and whether the run failed. -/
structure DriverRun where
  fetchCallTimes : List Nat
  transformInvoked : Bool
  loadInvoked : Bool
  failed : Bool
  deriving Repr, DecidableEq

/-- One DAG invocation traced end to end: the scheduler runs `extract`
under its retry policy (attempt `n` seeing HTTP outcome `outcomes n`),
then `transform`, then `load`; a task failure skips everything
downstream and fails the run. -/
def runDriver (outcomes : Nat → HttpOutcome)
    (logical_date_str base_currency : String) : DriverRun :=
  let fetched := retryRun (fun n => extract (outcomes n))
    extractRetryPolicy.retryDelayMinutes 0 0 extractRetryPolicy.retries
  match fetched.2 with
  | Except.error _ => ⟨fetched.1, false, false, true⟩
  | Except.ok raw =>
    match transform raw logical_date_str base_currency with
    | Except.error _ => ⟨fetched.1, true, false, true⟩
    | Except.ok _ => ⟨fetched.1, true, true, false⟩

/-- The end-to-end example response
`{"date":"2025-07-01","rates":{"EUR":0.92,"GBP":0.79}}`. -/
def scenarioResponse : RawResponse :=
  ⟨some "2025-07-01", [("EUR", (92 : Rat) / 100), ("GBP", (79 : Rat) / 100)]⟩

/-- The table the end-to-end scenario produces: rows
`(2025-07-01, USD, EUR, 0.92)` and `(2025-07-01, USD, GBP, 0.79)`. -/
def scenarioFrame : DataFrame :=
  ⟨["date", "base_currency", "currency_code", "rate"],
    [[Value.date ⟨2025, 7, 1⟩, Value.str "USD", Value.str "EUR",
        Value.rat ((92 : Rat) / 100)],
     [Value.date ⟨2025, 7, 1⟩, Value.str "USD", Value.str "GBP",
        Value.rat ((79 : Rat) / 100)]]⟩

/-! ## Shape of a successful `transform` -/

/-- The fixed output column contract of `transform`. -/
def finalColumns : List String :=
  ["date", "base_currency", "currency_code", "rate"]

/-- The row `transform` produces for one `(code, rate)` entry, once the
resolved date `d` is fixed. -/
def outputRow (d : Date) (base_currency : String) (p : String × Rat) :
    List Value :=
  [Value.date d, Value.str base_currency, Value.str p.1, Value.rat p.2]

/-- On a non-empty rates mapping whose resolved date string parses to `d`,
`transform` returns the frame with the fixed column order and one output
row per rate entry, in mapping order. -/
theorem transform_eq_of_parse (data : RawResponse)
    (logical_date_str base_currency : String) (d : Date)
    (hne : data.rates ≠ [])
    (hd : parseDate (data.date.getD logical_date_str) = some d) :
    transform data logical_date_str base_currency =
      Except.ok ⟨finalColumns, data.rates.map (outputRow d base_currency)⟩ := by
  unfold transform
  rw [if_neg (by simp [hne])]
  simp only []
  rw [hd]
  simp +decide [dataFrameOfRates, DataFrame.setScalarColumn,
    DataFrame.selectColumns, List.findIdx?_cons, List.findIdx?_nil,
    List.map_map, finalColumns, outputRow]

/-- Inversion: a successful `transform` can only have come from a
non-empty rates mapping and a resolved date string that parses, and its
value is the fixed-column frame of output rows. -/
theorem transform_ok_inv (data : RawResponse)
    (logical_date_str base_currency : String) (df : DataFrame)
    (h : transform data logical_date_str base_currency = Except.ok df) :
    data.rates ≠ [] ∧ ∃ d, parseDate (data.date.getD logical_date_str) = some d ∧
      df = ⟨finalColumns, data.rates.map (outputRow d base_currency)⟩ := by
  by_cases hne : data.rates = []
  · simp [transform, hne] at h
  · refine ⟨hne, ?_⟩
    cases hp : parseDate (data.date.getD logical_date_str) with
    | none =>
      unfold transform at h
      rw [if_neg (by simp [hne])] at h
      simp only [] at h
      rw [hp] at h
      cases h
    | some d =>
      rw [transform_eq_of_parse data logical_date_str base_currency d hne hp] at h
      exact ⟨d, rfl, (Except.ok.inj h).symm⟩

/-- The partition path in flattened-literal form. -/
theorem partitionPath_flat (output_path base_currency logical_date_str : String) :
    partitionPath output_path base_currency logical_date_str =
      output_path ++ "/base_currency=" ++ base_currency ++ "/date="
        ++ logical_date_str ++ "/data.parquet" := rfl

/-- The concrete USD / 2025-07-01 partition path. -/
theorem partitionPath_usd (output_path : String) :
    partitionPath output_path "USD" "2025-07-01" =
      output_path ++ "/base_currency=USD/date=2025-07-01/data.parquet" := by
  simp only [partitionPath, String.append_assoc]
  congr 1

/-- When every attempt fails, the retry loop makes one call per unit of
fuel plus the final one, each a fixed delay after the previous, and ends
with the last attempt's result. -/
theorem retryRun_all_fail {E A : Type} (f : Nat → Except E A) (delay : Nat)
    (h : ∀ n, ∃ e, f n = Except.error e) :
    ∀ k t i, retryRun f delay t i k =
      ((List.range (k + 1)).map (fun j => t + delay * j), f (i + k)) := by
  intro k
  induction k with
  | zero => intro t i; simp [retryRun, List.range_succ]
  | succ k ih =>
    intro t i
    obtain ⟨e, he⟩ := h i
    have h1 : t :: List.map (fun j => t + delay + delay * j) (List.range (k + 1))
        = List.map (fun j => t + delay * j) (List.range (k + 1 + 1)) := by
      rw [List.range_succ_eq_map (k + 1)]
      simp only [List.map_cons, List.map_map, Function.comp_apply,
        Nat.mul_zero, Nat.add_zero, Nat.succ_eq_add_one]
      refine congrArg₂ List.cons rfl (List.map_congr_left fun j _ => ?_)
      simp only [Function.comp_apply, Nat.succ_eq_add_one]
      ring
    rw [retryRun, he, ih (t + delay) (i + 1)]
    exact congrArg₂ Prod.mk h1 (congrArg f (by omega))

/-- C3: for every raw response whose rates mapping is empty, `transform`
fails with the `ValueError` (no rate data) and produces no output table,
for any fallback date and base currency. -/
theorem transform_empty_rates_rejected (data : RawResponse)
    (logical_date_str base_currency : String)
    (hempty : data.rates = []) :
    transform data logical_date_str base_currency =
      Except.error (TransformError.noRateData logical_date_str) := by
  simp [transform, hempty]

/-- Witness for C3 at the empty response. -/
theorem transform_empty_rates_rejected_witness :
    (⟨some "2025-07-01", []⟩ : RawResponse).rates = [] ∧
    transform ⟨some "2025-07-01", []⟩ "2025-07-01" "USD" =
      Except.error (TransformError.noRateData "2025-07-01") :=
  ⟨rfl, transform_empty_rates_rejected ⟨some "2025-07-01", []⟩ "2025-07-01" "USD" rfl⟩

/-- C5: for every raw response with a non-empty rates mapping and no date
field, every output record of `transform` is stamped with the parsed
fallback (logical) date. -/
theorem date_fallback_when_absent (data : RawResponse)
    (logical_date_str base_currency : String) (d : Date)
    (hne : data.rates ≠ []) (habs : data.date = none)
    (hfb : parseDate logical_date_str = some d) :
    ∃ df, transform data logical_date_str base_currency = Except.ok df ∧
      df.rows ≠ [] ∧
      ∀ row ∈ df.rows, row.getD 0 (Value.str "") = Value.date d := by
  refine ⟨_, transform_eq_of_parse data logical_date_str base_currency d hne
    (by rw [habs]; exact hfb), by simpa using hne, ?_⟩
  intro row hrow
  obtain ⟨p, _, rfl⟩ := List.mem_map.mp hrow
  rfl

/-- Witness for C5 on a one-entry response lacking a date. -/
theorem date_fallback_when_absent_witness :
    ∃ df, transform ⟨none, [("EUR", 1)]⟩ "2025-07-01" "USD" = Except.ok df ∧
      df.rows ≠ [] ∧
      ∀ row ∈ df.rows, row.getD 0 (Value.str "") = Value.date ⟨2025, 7, 1⟩ :=
  date_fallback_when_absent ⟨none, [("EUR", 1)]⟩ "2025-07-01" "USD" ⟨2025, 7, 1⟩
    (by simp) rfl (by rfl)

/-- C6: the partition path is a pure function of output root, base
currency and date — `load` builds it from those inputs alone — and it has
exactly the Hive-style shape, in particular for USD / 2025-07-01. -/
theorem partition_path_deterministic
    (output_path base_currency logical_date_str : String) :
    partitionPath output_path base_currency logical_date_str =
      output_path ++ "/base_currency=" ++ base_currency ++ "/date="
        ++ logical_date_str ++ "/data.parquet" ∧
    partitionPath output_path "USD" "2025-07-01" =
      output_path ++ "/base_currency=USD/date=2025-07-01/data.parquet" ∧
    ∀ store df, load store df logical_date_str base_currency output_path =
      writeStore store
        (partitionPath output_path base_currency logical_date_str) df :=
  ⟨partitionPath_flat output_path base_currency logical_date_str,
    partitionPath_usd output_path, fun _ _ => rfl⟩

/-- C1: for every non-empty rates mapping (in a response whose resolved
date string parses), `transform` produces a table with exactly the columns
[date, base_currency, currency_code, rate] in that order, one row per
entry of the rates mapping, and every row's base_currency equal to the
base_currency argument. -/
theorem transform_column_contract (data : RawResponse)
    (logical_date_str base_currency : String) (d : Date)
    (hne : data.rates ≠ [])
    (hd : parseDate (data.date.getD logical_date_str) = some d) :
    ∃ df, transform data logical_date_str base_currency = Except.ok df ∧
      df.columns = ["date", "base_currency", "currency_code", "rate"] ∧
      df.rows.length = data.rates.length ∧
      ∀ row ∈ df.rows, row.getD 1 (Value.str "") = Value.str base_currency := by
  refine ⟨_, transform_eq_of_parse data logical_date_str base_currency d hne hd,
    rfl, by simp, ?_⟩
  intro row hrow
  obtain ⟨p, _, rfl⟩ := List.mem_map.mp hrow
  rfl

/-- Witness for C1 on a concrete one-entry response. -/
theorem transform_column_contract_witness :
    ∃ df, transform ⟨some "2025-07-01", [("EUR", 1)]⟩ "2025-07-01" "USD" =
        Except.ok df ∧
      df.columns = ["date", "base_currency", "currency_code", "rate"] ∧
      df.rows.length = [("EUR", (1 : Rat))].length ∧
      ∀ row ∈ df.rows, row.getD 1 (Value.str "") = Value.str "USD" :=
  transform_column_contract ⟨some "2025-07-01", [("EUR", 1)]⟩ "2025-07-01" "USD"
    ⟨2025, 7, 1⟩ (by simp) (by decide)

/-- C2 counterexample: a fetcher failing on every attempt makes the
driver issue 6 extract calls (the initial try plus the 5 configured
retries), not 5. -/
theorem retry_exhaustion_counterexample :
    (runDriver (fun _ => HttpOutcome.transportError "timeout")
        "2025-07-01" "USD").fetchCallTimes.length = 6 ∧
    ¬ (runDriver (fun _ => HttpOutcome.transportError "timeout")
        "2025-07-01" "USD").fetchCallTimes.length = 5 := by
  exact ⟨rfl, by decide⟩

/-- C2 (amended): if every extract attempt fails, the driver makes
exactly 6 calls to it — the initial attempt plus the 5 configured
retries — spaced by the fixed 1-minute delay (start minutes 0..5), then
fails the invocation without ever invoking `transform` or `load`. -/
theorem retry_exhaustion (outcomes : Nat → HttpOutcome)
    (logical_date_str base_currency : String)
    (hfail : ∀ n, ∃ e, extract (outcomes n) = Except.error e) :
    runDriver outcomes logical_date_str base_currency =
      ⟨[0, 1, 2, 3, 4, 5], false, false, true⟩ := by
  obtain ⟨e5, he5⟩ := hfail 5
  have hr := retryRun_all_fail (fun n => extract (outcomes n)) 1 hfail 5 0 0
  have hr2 : retryRun (fun n => extract (outcomes n))
      extractRetryPolicy.retryDelayMinutes 0 0 extractRetryPolicy.retries =
      ([0, 1, 2, 3, 4, 5], Except.error e5) := by
    rw [show extractRetryPolicy.retryDelayMinutes = 1 from rfl,
      show extractRetryPolicy.retries = 5 from rfl, hr]
    exact congrArg₂ Prod.mk (by decide) he5
  simp [runDriver, hr2]

/-- Witness for C2 (amended) at a concrete always-failing fetcher. -/
theorem retry_exhaustion_witness :
    runDriver (fun _ => HttpOutcome.transportError "timeout")
        "2025-07-01" "USD" =
      ⟨[0, 1, 2, 3, 4, 5], false, false, true⟩ :=
  retry_exhaustion (fun _ => HttpOutcome.transportError "timeout")
    "2025-07-01" "USD"
    (fun _ => ⟨ExtractError.apiRequestFailed "timeout", rfl⟩)

/-- C4 counterexample: on a response whose date field is present but
unparseable, `transform` fails with the date-parse error instead of
falling back to the fallback date, hence produces no records at all. -/
theorem date_resolution_counterexample :
    transform ⟨some "not-a-date", [("EUR", 1)]⟩ "2025-07-01" "USD" =
      Except.error (TransformError.dateParseError "not-a-date") ∧
    ¬ ∃ df, transform ⟨some "not-a-date", [("EUR", 1)]⟩ "2025-07-01" "USD" =
        Except.ok df := by
  refine ⟨rfl, ?_⟩
  rintro ⟨df, hdf⟩
  rw [show transform ⟨some "not-a-date", [("EUR", 1)]⟩ "2025-07-01" "USD" =
      Except.error (TransformError.dateParseError "not-a-date") from rfl] at hdf
  cases hdf

/-- C4 (amended): on a non-empty rates mapping the resolved date is the
service-provided date when present and the fallback date when absent —
both via `data.get("date", logical_date_str)` — and every record is
stamped with it when it parses, while an unparseable resolved date string
fails the task instead of falling back. -/
theorem date_resolution (data : RawResponse)
    (logical_date_str base_currency : String)
    (hne : data.rates ≠ []) :
    (∀ d, parseDate (data.date.getD logical_date_str) = some d →
      ∃ df, transform data logical_date_str base_currency = Except.ok df ∧
        df.rows ≠ [] ∧
        ∀ row ∈ df.rows, row.getD 0 (Value.str "") = Value.date d) ∧
    (parseDate (data.date.getD logical_date_str) = none →
      transform data logical_date_str base_currency =
        Except.error (TransformError.dateParseError
          (data.date.getD logical_date_str))) := by
  constructor
  · intro d hd
    refine ⟨_, transform_eq_of_parse data logical_date_str base_currency d hne hd,
      by simpa using hne, ?_⟩
    intro row hrow
    obtain ⟨p, _, rfl⟩ := List.mem_map.mp hrow
    rfl
  · intro hnone
    unfold transform
    rw [if_neg (by simp [hne])]
    simp only []
    rw [hnone]

/-- Witness for C4 (amended) on a response carrying its own date. -/
theorem date_resolution_witness :
    ∃ df, transform ⟨some "2025-07-02", [("EUR", 1)]⟩ "2025-07-01" "USD" =
        Except.ok df ∧ df.rows ≠ [] ∧
      ∀ row ∈ df.rows, row.getD 0 (Value.str "") = Value.date ⟨2025, 7, 2⟩ :=
  (date_resolution ⟨some "2025-07-02", [("EUR", 1)]⟩ "2025-07-01" "USD"
    (by simp)).1 ⟨2025, 7, 2⟩ (by decide)

/-- C7: running the pipeline twice for the same (date, base_currency) on
the same fetched data is idempotent — the second run overwrites the one
partition file the first run wrote, so storage after two runs is exactly
storage after one. -/
theorem pipeline_idempotent (fetched : Except ExtractError RawResponse)
    (store : Store) (logical_date_str base_currency output_path : String) :
    runPipeline fetched
        (runPipeline fetched store logical_date_str base_currency output_path)
        logical_date_str base_currency output_path =
      runPipeline fetched store logical_date_str base_currency output_path := by
  cases fetched with
  | error e => rfl
  | ok raw =>
    cases htr : transform raw logical_date_str base_currency with
    | error e => simp [runPipeline, htr]
    | ok df =>
      simp only [runPipeline, htr, load]
      funext p
      by_cases hp :
        p = partitionPath output_path base_currency logical_date_str
      · simp [writeStore, hp]
      · simp [writeStore, hp]

/-- C8: the end-to-end scenario — response
`{"date":"2025-07-01","rates":{"EUR":0.92,"GBP":0.79}}` with base
currency USD yields exactly the rows (2025-07-01, USD, EUR, 0.92) and
(2025-07-01, USD, GBP, 0.79), written at
`<output_root>/base_currency=USD/date=2025-07-01/data.parquet`. -/
theorem end_to_end_scenario :
    transform scenarioResponse "2025-07-01" "USD" = Except.ok scenarioFrame ∧
    ∀ store output_path,
      runPipeline (Except.ok scenarioResponse) store "2025-07-01" "USD"
          output_path =
        writeStore store
          (output_path ++ "/base_currency=USD/date=2025-07-01/data.parquet")
          scenarioFrame := by
  have ht : transform scenarioResponse "2025-07-01" "USD" =
      Except.ok scenarioFrame := by rfl
  refine ⟨ht, fun store output_path => ?_⟩
  simp only [runPipeline, ht, load]
  rw [partitionPath_usd]

/-- C9: every failing fetch — transport error or any 4xx/5xx status — is
signaled by `extract` as the one `AirflowException` failure kind, with no
distinction between client and server errors and no returned value; and
every `extract` failure is of that kind. -/
theorem extract_failure_uniform :
    (∀ msg, extract (HttpOutcome.transportError msg) =
      Except.error (ExtractError.apiRequestFailed msg)) ∧
    (∀ status body, 400 ≤ status → status < 600 →
      ∃ m, extract (HttpOutcome.response status body) =
        Except.error (ExtractError.apiRequestFailed m)) ∧
    (∀ outcome e, extract outcome = Except.error e →
      ∃ m, e = ExtractError.apiRequestFailed m) := by
  refine ⟨fun msg => rfl, fun status body h4 h6 => ?_, fun outcome e he => ?_⟩
  · refine ⟨"status " ++ toString status, ?_⟩
    simp [extract, raiseForStatusFails, h4, h6]
  · cases e with
    | apiRequestFailed m => exact ⟨m, rfl⟩

/-- Witness for C9 at a client-error status. -/
theorem extract_failure_uniform_witness :
    ∃ m, extract (HttpOutcome.response 404 ⟨none, []⟩) =
      Except.error (ExtractError.apiRequestFailed m) :=
  extract_failure_uniform.2.1 404 ⟨none, []⟩ (by decide) (by decide)

/-- C10: the written partition path is computed from the logical date
string alone, so when the service echoes a different (parseable) date,
the records carry that service date while the path's `date=` segment is
the logical date — the two disagree. -/
theorem load_partitions_by_logical_date (store : Store)
    (output_path logical_date_str base_currency : String)
    (raw : RawResponse) (df : DataFrame)
    (hok : transform raw logical_date_str base_currency = Except.ok df) :
    runPipeline (Except.ok raw) store logical_date_str base_currency
        output_path =
      writeStore store
        (partitionPath output_path base_currency logical_date_str) df ∧
    ∀ s ds dfb, raw.date = some s → parseDate s = some ds →
      parseDate logical_date_str = some dfb → ds ≠ dfb →
      (∀ row ∈ df.rows, row.getD 0 (Value.str "") = Value.date ds) ∧
      ds ≠ dfb := by
  constructor
  · simp [runPipeline, hok, load]
  · intro s ds dfb hs hds hdfb hne2
    obtain ⟨hne, d, hd, rfl⟩ :=
      transform_ok_inv raw logical_date_str base_currency df hok
    rw [hs, Option.getD_some, hds] at hd
    obtain rfl := Option.some.inj hd
    refine ⟨?_, hne2⟩
    intro row hrow
    obtain ⟨p, _, rfl⟩ := List.mem_map.mp hrow
    rfl

/-- Witness for C10: service date 2025-07-02, logical date 2025-07-01. -/
theorem load_partitions_by_logical_date_witness :
    (runPipeline (Except.ok ⟨some "2025-07-02", [("EUR", 1)]⟩)
        (fun _ => none) "2025-07-01" "USD" "gs://bucket" =
      writeStore (fun _ => none)
        (partitionPath "gs://bucket" "USD" "2025-07-01")
        ⟨finalColumns, [outputRow ⟨2025, 7, 2⟩ "USD" ("EUR", 1)]⟩) ∧
    (∀ row ∈ (⟨finalColumns,
        [outputRow ⟨2025, 7, 2⟩ "USD" ("EUR", 1)]⟩ : DataFrame).rows,
      row.getD 0 (Value.str "") = Value.date ⟨2025, 7, 2⟩) ∧
    (⟨2025, 7, 2⟩ : Date) ≠ ⟨2025, 7, 1⟩ := by
  have h := load_partitions_by_logical_date (fun _ => none) "gs://bucket"
    "2025-07-01" "USD" ⟨some "2025-07-02", [("EUR", 1)]⟩
    ⟨finalColumns, [outputRow ⟨2025, 7, 2⟩ "USD" ("EUR", 1)]⟩ rfl
  exact ⟨h.1, h.2 "2025-07-02" ⟨2025, 7, 2⟩ ⟨2025, 7, 1⟩ rfl (by decide)
    (by decide) (by decide)⟩

end CurrencyEtl
